import Mathlib

/-!
Shallow embedding of the fairOS-rs client library (src/client.rs, src/doc.rs,
src/kv.rs, src/filesystem.rs) and proofs about the frozen claims.

Conventions of the embedding:
* Rust `u32` values are modelled as `Nat`, with explicit `< 2^32` bounds where
  the claims need them, and `% 2^32` / `% 2^64` where the source truncates.
* A Rust function that can panic (`unwrap`, `unimplemented!`) is modelled with
  an explicit `panicked` outcome (`RustResult`) or `Option` result (`none`
  standing for the panic of `unimplemented!`).
* `format!("{}", n)` on an unsigned integer is modelled by `natRepr`, a
  fuel-based decimal renderer (the fuel is always sufficient, see
  `natDigitsRev_spec`).
-/

namespace FairOS

/-- Outcome of running a Rust expression that returns `Result<α, ε>` and may
also panic: `ok`/`err` are the two `Result` constructors, `panicked` models an
uncaught panic (`unwrap` of `None`/`Err`, or `unimplemented!`). -/
inductive RustResult (ε α : Type) where
  | ok (a : α)
  | err (e : ε)
  | panicked
deriving DecidableEq, Repr

/-! ## Decimal rendering and parsing of unsigned integers

`natDigitsRev fuel n` is the little-endian list of decimal digit characters of
`n` (correct whenever `n < fuel`); `natRepr n` models Rust's
`format!("{}", n)`. `parseU32` models Rust's `str::parse::<u32>()`: an
optional leading `'+'`, then one or more ASCII digits, value below `2^32`. -/

def natDigitsRev (fuel n : Nat) : List Char :=
  match fuel with
  | 0 => []
  | fuel + 1 =>
    if n < 10 then [Nat.digitChar n]
    else Nat.digitChar (n % 10) :: natDigitsRev fuel (n / 10)

def natRepr (n : Nat) : String :=
  String.mk (natDigitsRev (n + 1) n).reverse

/-- Value of a big-endian list of decimal digit characters. -/
def digitsVal (cs : List Char) : Nat :=
  cs.foldl (fun a c => a * 10 + (c.toNat - 48)) 0

/-- Strip the optional leading `'+'` sign accepted by Rust's unsigned-integer
`FromStr`. -/
def stripSign (cs : List Char) : List Char :=
  match cs with
  | c :: rest => if c = '+' then rest else c :: rest
  | [] => []

/-- Model of Rust `str::parse::<u32>()` (an optional leading `'+'`, then a
nonempty run of ASCII digits whose value fits in a `u32`). -/
def parseU32 (s : String) : Option Nat :=
  let cs := stripSign s.data
  if cs.isEmpty then none
  else if cs.all Char.isDigit then
    if digitsVal cs < 4294967296 then some (digitsVal cs) else none
  else none

/-! ## Expression compiler (src/doc.rs) -/

/-- `enum ExprValue { Str(String), Number(u32), Map }` from src/doc.rs. -/
inductive ExprValue where
  | str (s : String)
  | number (n : Nat)
  | map
deriving DecidableEq, Repr

/-- `impl ToString for ExprValue` from src/doc.rs; `none` models the
`unimplemented!()` panic on the `Map` branch. -/
def ExprValue.toString : ExprValue → Option String
  | .str s => some ("%22" ++ s ++ "%22")
  | .number n => some (natRepr n)
  | .map => none

/-- `enum Expr` from src/doc.rs. -/
inductive Expr where
  | all
  | eq (field : String) (value : ExprValue)
  | gt (field : String) (value : ExprValue)
  | gte (field : String) (value : ExprValue)
  | lt (field : String) (value : ExprValue)
  | lte (field : String) (value : ExprValue)
  | and (a b : Expr)
  | or (a b : Expr)
deriving DecidableEq, Repr

/-- `impl ToString for Expr` from src/doc.rs; `none` models the
`unimplemented!()` panics on the `And`/`Or` branches and the panic propagated
from compiling a `Map` value. -/
def Expr.toString : Expr → Option String
  | .all => some ""
  | .eq field value => value.toString.map fun v => field ++ "=" ++ v
  | .gt field value => value.toString.map fun v => field ++ "%3e" ++ v
  | .gte field value => value.toString.map fun v => field ++ "%3e=" ++ v
  | .lt field value => value.toString.map fun v => v ++ "%3e" ++ field
  | .lte field value => value.toString.map fun v => v ++ "%3e=" ++ field
  | .and _ _ => none
  | .or _ _ => none

/-! ## Session store and transport classification (src/client.rs) -/

/-- `enum RequestError { CouldNotConnect, Message(String) }` from
src/client.rs. -/
inductive RequestError where
  | couldNotConnect
  | message (msg : String)
deriving DecidableEq, Repr

/-- `struct MessageResponse { message: String, code: u32 }` from
src/client.rs: the `{message, code}` failure envelope. -/
structure MessageResponse where
  message : String
  code : Nat
deriving DecidableEq, Repr

/-- `fn is_status_ok(status: StatusCode) -> bool` from src/client.rs. -/
def is_status_ok (status : Nat) : Bool :=
  200 ≤ status && status < 300

/-- The `Client` state (src/client.rs): base url and the
`cookies: HashMap<String, String>` session map, modelled extensionally as a
function from username to optional token. -/
structure Client where
  url : String
  cookies : String → Option String

/-- `Client::new` / `new_with_url(None)` from src/client.rs: default url, empty
cookie map. -/
def Client.new : Client :=
  { url := "http://localhost:9090/v1", cookies := fun _ => none }

/-- `Client::cookie` from src/client.rs. -/
def Client.cookie (c : Client) (username : String) : Option String :=
  c.cookies username

/-- `Client::set_cookie` from src/client.rs (`HashMap::insert`). -/
def Client.set_cookie (c : Client) (username : String) (cookie : String) : Client :=
  { c with cookies := fun k => if k = username then some cookie else c.cookies k }

/-- `Client::remove_cookie` from src/client.rs (`HashMap::remove`). -/
def Client.remove_cookie (c : Client) (username : String) : Client :=
  { c with cookies := fun k => if k = username then none else c.cookies k }

/-- Outcome of one HTTP exchange as seen by `Client::get`: either the connect
failed (`hyper` returned `Err`, mapped to `CouldNotConnect`), or a response
arrived with some status and a raw body (abstract type `β`). -/
inductive HttpExchange (β : Type) where
  | connectFailed
  | response (status : Nat) (body : β)

/-- `Client::get` from src/client.rs, after the request was issued: classifies
the exchange. `decodeT` models `serde_json::from_slice` at the success type,
`decodeEnv` models it at `MessageResponse`; a decode failure is an `unwrap`
panic in the source. -/
def Client.get {β T : Type} (decodeT : β → Option T)
    (decodeEnv : β → Option MessageResponse)
    (exch : HttpExchange β) : RustResult RequestError T :=
  match exch with
  | .connectFailed => .err .couldNotConnect
  | .response status body =>
    if is_status_ok status then
      match decodeT body with
      | some t => .ok t
      | none => .panicked
    else
      match decodeEnv body with
      | some env => .err (.message env.message)
      | none => .panicked

/-- The `Set-Cookie` extraction inside `Client::post` (src/client.rs:129-141),
given the header value as a string (the preceding `to_str().unwrap()`, a panic
on a header value that is not a valid string, is applied before this step):
take the piece before the first `';'` (`split(";").next().unwrap()`; a split
always yields at least one piece, so the `[]` branches are unreachable), split
it on `'='`; `name` is the first piece and `value` the second, whose absence
(no `'='` in the piece) is an `unwrap` of `None` panic; the extracted token is
`some value` exactly when `name` is `"fairOS-dfs"`. -/
def parse_set_cookie (cookie_str : String) : RustResult Unit (Option String) :=
  match cookie_str.splitOn ";" with
  | [] => .panicked
  | first :: _ =>
    match first.splitOn "=" with
    | [] => .panicked
    | [_] => .panicked
    | name :: value :: _ =>
      if name = "fairOS-dfs" then .ok (some value) else .ok none

/-! ## Error taxonomy (src/error.rs) -/

/-- `enum FairOSUserError` from src/error.rs. -/
inductive FairOSUserError where
  | error
  | usernameAlreadyExists
  | invalidUsername
  | invalidPassword
deriving DecidableEq, Repr

/-- `enum FairOSDocumentError` from src/error.rs. -/
inductive FairOSDocumentError where
  | error
deriving DecidableEq, Repr

/-- `enum FairOSKeyValueError` from src/error.rs. -/
inductive FairOSKeyValueError where
  | error
deriving DecidableEq, Repr

/-- `enum FairOSError` from src/error.rs (the `Pod`/`FileSystem` variants are
not needed by any claim and are collapsed to their single `Error` value). -/
inductive FairOSError where
  | couldNotConnect
  | user (e : FairOSUserError)
  | pod
  | fileSystem
  | keyValue (e : FairOSKeyValueError)
  | document (e : FairOSDocumentError)
deriving DecidableEq, Repr

/-! ## Seek stream (src/kv.rs) -/

/-- `struct KvEntryGetResponse { keys: Vec<String>, values: String }` from
src/kv.rs: the decoded body of a successful `/kv/seek/next` response. -/
structure KvEntryGetResponse where
  keys : List String
  values : String
deriving DecidableEq, Repr

/-- `struct KeyValueSeek` from src/kv.rs (the `client` reference is passed
separately). -/
structure KeyValueSeek where
  username : String
  pod_name : String
  table_name : String
  limit : Option Nat
deriving DecidableEq, Repr

/-- What one poll of the seek stream produces: `yield` is
`Poll::Ready(Some((key, value)))`, `ended` is `Poll::Ready(None)`, and
`panicked` models an `unwrap` panic inside `poll_next`. -/
inductive PollNextResult where
  | yield (key value : String)
  | ended
  | panicked
deriving DecidableEq, Repr

/-- `KeyValueSeek::poll_next` from src/kv.rs, given the outcome `resp` of the
single `/kv/seek/next` call it issues (the `Poll::Pending` passthrough carries
no data and is omitted): first `self.client.cookie(&self.username).unwrap()`,
then on `Err(_)` end the stream, on `Ok` yield
`(res.keys.get(0).unwrap().clone(), res.values)`. -/
def KeyValueSeek.poll_next (c : Client) (s : KeyValueSeek)
    (resp : Except RequestError KvEntryGetResponse) : PollNextResult :=
  match c.cookie s.username with
  | none => .panicked
  | some _ =>
    match resp with
    | .error _ => .ended
    | .ok res =>
      match res.keys with
      | [] => .panicked
      | key :: _ => .yield key res.values

/-- `KeyValueSeek::size_hint` from src/kv.rs. -/
def KeyValueSeek.size_hint (s : KeyValueSeek) : Nat × Option Nat :=
  match s.limit with
  | some limit => (0, some limit)
  | none => (0, none)

/-! ## Document retrieval (src/doc.rs) -/

/-- `struct DocEntryGetResponse { doc: String }` from src/doc.rs. -/
structure DocEntryGetResponse where
  doc : String
deriving DecidableEq, Repr

/-- `Client::get_document` from src/doc.rs, given the outcome `resp` of its
single `/doc/entry/get` call: first `self.cookie(username).unwrap()`, then map
transport errors into `FairOSError`, then
`serde_json::from_slice(&base64::decode(&res.doc).unwrap()).unwrap()`
(modelled by `decodeDoc`, whose `none` is the panic of those two unwraps). -/
def Client.get_document {T : Type} (c : Client) (username : String)
    (resp : Except RequestError DocEntryGetResponse)
    (decodeDoc : String → Option T) : RustResult FairOSError T :=
  match c.cookie username with
  | none => .panicked
  | some _ =>
    match resp with
    | .error .couldNotConnect => .err .couldNotConnect
    | .error (.message _) => .err (.document .error)
    | .ok res =>
      match decodeDoc res.doc with
      | none => .panicked
      | some t => .ok t

/-- `Client::count_documents` from src/doc.rs, given the outcome `resp` of its
single `/doc/count` post (the refreshed-cookie component and any `Set-Cookie`
parsing panic inside `post` are modelled separately by `parse_set_cookie`):
first `self.cookie(username).unwrap()`, then map transport errors into
`FairOSError`, then `Ok(res.message.parse().unwrap())` — a success whose
message does not parse as a `u32` is a panic. -/
def Client.count_documents (c : Client) (username : String)
    (resp : Except RequestError MessageResponse) : RustResult FairOSError Nat :=
  match c.cookie username with
  | none => .panicked
  | some _ =>
    match resp with
    | .error .couldNotConnect => .err .couldNotConnect
    | .error (.message _) => .err (.document .error)
    | .ok res =>
      match parseU32 res.message with
      | none => .panicked
      | some n => .ok n

/-- `Client::load_json_buffer` from src/doc.rs, given the outcome `prepared`
of `multipart.prepare().unwrap()` plus `read_to_end(..).unwrap()` (`some
boundary` on success, `none` when either fails, which the source unwraps
before touching the cookie) and the outcome `resp` of its `/doc/loadjson`
upload; `load_json_file` (src/doc.rs) and `kv_load_csv_buffer` /
`kv_load_csv_file` (src/kv.rs:327-385, with `FairOSKeyValueError` in place of
`FairOSDocumentError`) follow the same shape. -/
def Client.load_json_buffer (c : Client) (username : String)
    (prepared : Option String) (resp : Except RequestError MessageResponse) :
    RustResult FairOSError Unit :=
  match prepared with
  | none => .panicked
  | some _ =>
    match c.cookie username with
    | none => .panicked
    | some _ =>
      match resp with
      | .error .couldNotConnect => .err .couldNotConnect
      | .error (.message _) => .err (.document .error)
      | .ok _ => .ok ()

/-! ## BlockSize (src/filesystem.rs) -/

/-- `enum BlockSize` from src/filesystem.rs: a unit-tagged `u32` magnitude. -/
inductive BlockSize where
  | bytes (n : Nat)
  | kilobytes (n : Nat)
  | megabytes (n : Nat)
  | gigabytes (n : Nat)
  | terabytes (n : Nat)
deriving DecidableEq, Repr

/-- The `u64` byte count computed inside `BlockSize::conversion`
(src/filesystem.rs): `*n as u64 * factor`, with `u64` wrap-around modelled by
`% 2^64`. -/
def BlockSize.bytesValue : BlockSize → Nat
  | .bytes n => n % 18446744073709551616
  | .kilobytes n => n * 1000 % 18446744073709551616
  | .megabytes n => n * 1000000 % 18446744073709551616
  | .gigabytes n => n * 1000000000 % 18446744073709551616
  | .terabytes n => n * 1000000000000 % 18446744073709551616

/-- `BlockSize::conversion` from src/filesystem.rs: `(bytes / divisor) as u32`
(`as u32` truncates, modelled by `% 2^32`). -/
def BlockSize.conversion (b : BlockSize) (divisor : Nat) : Nat :=
  b.bytesValue / divisor % 4294967296

/-- `BlockSize::to_bytes` from src/filesystem.rs. -/
def BlockSize.to_bytes (b : BlockSize) : BlockSize :=
  .bytes (b.conversion 1)

/-- `BlockSize::to_kilobytes` from src/filesystem.rs. -/
def BlockSize.to_kilobytes (b : BlockSize) : BlockSize :=
  .kilobytes (b.conversion 1000)

/-- `BlockSize::to_megabytes` from src/filesystem.rs. -/
def BlockSize.to_megabytes (b : BlockSize) : BlockSize :=
  .megabytes (b.conversion 1000000)

/-- `BlockSize::to_gigabytes` from src/filesystem.rs. -/
def BlockSize.to_gigabytes (b : BlockSize) : BlockSize :=
  .gigabytes (b.conversion 1000000000)

/-- `BlockSize::to_terabytes` from src/filesystem.rs. -/
def BlockSize.to_terabytes (b : BlockSize) : BlockSize :=
  .terabytes (b.conversion 1000000000000)

/-- `impl ToString for BlockSize` from src/filesystem.rs:
`format!("{}B", n)` and so on. -/
def BlockSize.to_string : BlockSize → String
  | .bytes n => natRepr n ++ "B"
  | .kilobytes n => natRepr n ++ "K"
  | .megabytes n => natRepr n ++ "M"
  | .gigabytes n => natRepr n ++ "G"
  | .terabytes n => natRepr n ++ "T"

/-- `impl FromStr for BlockSize` from src/filesystem.rs: reverse the
characters, `unwrap` the first reversed character (the unit; panics on the
empty string), parse the rest (restored to original order) as `u32` with
`unwrap` (panics when it is not a valid `u32`), then match the unit letter
(`Err(())` on any letter outside `B K M G T`). -/
def BlockSize.from_str (s : String) : RustResult Unit BlockSize :=
  match s.data.reverse with
  | [] => .panicked
  | unit :: rest =>
    match parseU32 (String.mk rest.reverse) with
    | none => .panicked
    | some size =>
      if unit = 'B' then .ok (.bytes size)
      else if unit = 'K' then .ok (.kilobytes size)
      else if unit = 'M' then .ok (.megabytes size)
      else if unit = 'G' then .ok (.gigabytes size)
      else if unit = 'T' then .ok (.terabytes size)
      else .err ()

/-! ## Helper lemmas -/

theorem digitChar_toNat {d : Nat} (h : d < 10) : (Nat.digitChar d).toNat = 48 + d := by
  interval_cases d <;> rfl

theorem digitChar_isDigit {d : Nat} (h : d < 10) : (Nat.digitChar d).isDigit = true := by
  interval_cases d <;> rfl

theorem digitsVal_append (l : List Char) (c : Char) :
    digitsVal (l ++ [c]) = digitsVal l * 10 + (c.toNat - 48) := by
  unfold digitsVal
  rw [List.foldl_append]
  rfl

theorem natDigitsRev_spec (fuel : Nat) :
    ∀ n, n < fuel →
      natDigitsRev fuel n ≠ [] ∧
      (∀ c ∈ natDigitsRev fuel n, c.isDigit = true) ∧
      digitsVal (natDigitsRev fuel n).reverse = n := by
  induction fuel with
  | zero => intro n h; omega
  | succ fuel ih =>
    intro n h
    by_cases h10 : n < 10
    · refine ⟨by simp [natDigitsRev, h10], ?_, ?_⟩
      · intro c hc
        simp [natDigitsRev, h10] at hc
        subst hc
        exact digitChar_isDigit h10
      · simp [natDigitsRev, h10, digitsVal, digitChar_toNat h10]
    · have hdiv : n / 10 < fuel := by
        have := Nat.div_lt_self (show 0 < n by omega) (show 1 < 10 by norm_num)
        omega
      obtain ⟨hne, hdig, hval⟩ := ih (n / 10) hdiv
      refine ⟨by simp [natDigitsRev, h10], ?_, ?_⟩
      · intro c hc
        simp only [natDigitsRev, if_neg h10, List.mem_cons] at hc
        rcases hc with hc | hc
        · subst hc
          exact digitChar_isDigit (Nat.mod_lt _ (by norm_num))
        · exact hdig c hc
      · simp only [natDigitsRev, if_neg h10, List.reverse_cons]
        rw [digitsVal_append, hval, digitChar_toNat (Nat.mod_lt _ (by norm_num))]
        omega

theorem parseU32_natRepr (n : Nat) (h : n < 4294967296) :
    parseU32 (natRepr n) = some n := by
  obtain ⟨hne, hdig, hval⟩ := natDigitsRev_spec (n + 1) n (Nat.lt_succ_self n)
  have hdata : (natRepr n).data = (natDigitsRev (n + 1) n).reverse := rfl
  obtain ⟨c, rest, hcr⟩ : ∃ c rest, (natDigitsRev (n + 1) n).reverse = c :: rest := by
    cases hrev : (natDigitsRev (n + 1) n).reverse with
    | nil => exact absurd (List.reverse_eq_nil_iff.mp hrev) hne
    | cons c rest => exact ⟨c, rest, rfl⟩
  have hcdig : c.isDigit = true := by
    have hc : c ∈ (natDigitsRev (n + 1) n).reverse := by
      rw [hcr]; exact List.mem_cons_self _ _
    exact hdig c (List.mem_reverse.mp hc)
  have hcplus : ¬ c = '+' := by
    intro hc
    rw [hc] at hcdig
    exact absurd hcdig (by decide)
  have hall : ((c :: rest).all Char.isDigit) = true := by
    rw [← hcr]
    exact List.all_eq_true.mpr fun x hx => hdig x (List.mem_reverse.mp hx)
  have hvcr : digitsVal (c :: rest) = n := by rw [← hcr]; exact hval
  unfold parseU32
  rw [hdata, hcr]
  simp [stripSign, hcplus, hall, hvcr, h]

theorem from_str_eq (s : String) (c : Char) (pre : List Char)
    (hs : s.data = pre ++ [c]) :
    BlockSize.from_str s =
      match parseU32 (String.mk pre) with
      | none => .panicked
      | some size =>
        if c = 'B' then .ok (.bytes size)
        else if c = 'K' then .ok (.kilobytes size)
        else if c = 'M' then .ok (.megabytes size)
        else if c = 'G' then .ok (.gigabytes size)
        else if c = 'T' then .ok (.terabytes size)
        else .err () := by
  unfold BlockSize.from_str
  rw [hs, List.reverse_append]
  simp [List.reverse_reverse]

theorem from_str_nil (s : String) (hs : s.data = []) :
    BlockSize.from_str s = .panicked := by
  unfold BlockSize.from_str
  rw [hs]
  rfl

/-! ## Claim theorems -/

/-- C1: for every field `f` and every compilable value `v` (a `Str` or
`Number`, i.e. one whose compilation yields a string `vs`), `Lt(f, v)`
compiles to `vs ++ "%3e" ++ f` and `Lte(f, v)` to `vs ++ "%3e=" ++ f`: the
operand order is exactly inverted relative to `Gt`/`Gte`, which place the
field first. -/
theorem lt_lte_swap_operands (f : String) (v : ExprValue) (vs : String)
    (h : v.toString = some vs) :
    (Expr.lt f v).toString = some (vs ++ "%3e" ++ f) ∧
    (Expr.lte f v).toString = some (vs ++ "%3e=" ++ f) ∧
    (Expr.gt f v).toString = some (f ++ "%3e" ++ vs) ∧
    (Expr.gte f v).toString = some (f ++ "%3e=" ++ vs) := by
  refine ⟨?_, ?_, ?_, ?_⟩ <;> simp [Expr.toString, h]

theorem lt_lte_swap_operands_witness :
    (Expr.lt "n" (.number 3)).toString = some ("3" ++ "%3e" ++ "n") :=
  (lt_lte_swap_operands "n" (.number 3) "3" (by decide)).1

/-- C2: compilation of the supported shapes matches the documented templates:
`All` compiles to `""`, `Eq(f, Str(s))` to `f=%22s%22`, `Eq(f, Number(n))` to
`f=n`, `Gt(f, v)` to `f%3ev`, `Gte(f, v)` to `f%3e=v`; in particular
`Gt("n", Number(9))` compiles to `"n%3e9"`. -/
theorem compile_templates (f s : String) (n : Nat) (v : ExprValue) (vs : String)
    (h : v.toString = some vs) :
    Expr.all.toString = some "" ∧
    (Expr.eq f (.str s)).toString = some (f ++ "=" ++ ("%22" ++ s ++ "%22")) ∧
    (Expr.eq f (.number n)).toString = some (f ++ "=" ++ natRepr n) ∧
    (Expr.gt f v).toString = some (f ++ "%3e" ++ vs) ∧
    (Expr.gte f v).toString = some (f ++ "%3e=" ++ vs) ∧
    (Expr.gt "n" (.number 9)).toString = some "n%3e9" := by
  exact ⟨rfl, by simp [Expr.toString, ExprValue.toString],
    by simp [Expr.toString, ExprValue.toString],
    by simp [Expr.toString, h], by simp [Expr.toString, h], by decide⟩

theorem compile_templates_witness :
    (Expr.eq "s" (.str "a")).toString = some ("s" ++ "=" ++ ("%22" ++ "a" ++ "%22")) :=
  (compile_templates "s" "a" 0 (.number 0) "0" (by decide)).2.1

/-- C6: compiling `And(a, b)` or `Or(a, b)` fails fast (the `unimplemented!`
panic, modelled by `none`) for every pair of subexpressions, and so does
compiling any comparison whose value is `Map`; no string is ever produced for
these shapes. -/
theorem and_or_map_unimplemented :
    (∀ a b : Expr, (Expr.and a b).toString = none ∧ (Expr.or a b).toString = none) ∧
    (∀ f : String,
      (Expr.eq f .map).toString = none ∧
      (Expr.gt f .map).toString = none ∧
      (Expr.gte f .map).toString = none ∧
      (Expr.lt f .map).toString = none ∧
      (Expr.lte f .map).toString = none) :=
  ⟨fun _ _ => ⟨rfl, rfl⟩, fun _ => ⟨rfl, rfl, rfl, rfl, rfl⟩⟩

/-- C8: after `set_cookie(u, t)`, `cookie(u)` is `some t`; after
`remove_cookie(u)`, `cookie(u)` is `none`; setting twice overwrites; and none
of these operations changes the stored token of any other username. -/
theorem session_store_contract (c : Client) (u u' t t' : String) :
    (c.set_cookie u t).cookie u = some t ∧
    (c.remove_cookie u).cookie u = none ∧
    ((c.set_cookie u t).set_cookie u t').cookie u = some t' ∧
    (u' ≠ u →
      (c.set_cookie u t).cookie u' = c.cookie u' ∧
      (c.remove_cookie u).cookie u' = c.cookie u') := by
  refine ⟨?_, ?_, ?_, fun h => ⟨?_, ?_⟩⟩ <;>
    simp [Client.cookie, Client.set_cookie, Client.remove_cookie, *]

theorem session_store_contract_witness :
    (Client.new.set_cookie "alice" "t1").cookie "bob" = Client.new.cookie "bob" ∧
    (Client.new.remove_cookie "alice").cookie "bob" = Client.new.cookie "bob" :=
  (session_store_contract Client.new "alice" "bob" "t1" "t2").2.2.2 (by decide)

/-- C9: when the `/kv/seek/next` call succeeds but the decoded response holds
an empty `keys` list, polling the seek stream panics (the `unwrap` of `None`
on the first-element access) rather than yielding an element or ending the
stream. -/
theorem seek_poll_next_empty_keys_panics (c : Client) (s : KeyValueSeek)
    (values : String) :
    KeyValueSeek.poll_next c s (.ok ⟨[], values⟩) = .panicked := by
  unfold KeyValueSeek.poll_next
  cases c.cookie s.username <;> rfl

/-- C3: each poll of the seek stream consumes the outcome of the one
`/kv/seek/next` call it issues; any error outcome (remote rejection and
connection failure alike) ends the stream, and a success whose keys list has a
first element yields the pair of that first key and the decoded values
string. -/
theorem seek_poll_next_contract (c : Client) (s : KeyValueSeek)
    (hc : (c.cookie s.username).isSome = true) :
    (∀ e, KeyValueSeek.poll_next c s (.error e) = .ended) ∧
    (∀ key keys values,
      KeyValueSeek.poll_next c s (.ok ⟨key :: keys, values⟩) = .yield key values) := by
  obtain ⟨tok, htok⟩ := Option.isSome_iff_exists.mp hc
  refine ⟨fun e => ?_, fun key keys values => ?_⟩ <;>
    simp [KeyValueSeek.poll_next, htok]

theorem seek_poll_next_contract_witness :
    KeyValueSeek.poll_next (Client.new.set_cookie "alice" "tok")
      ⟨"alice", "pod", "table", none⟩ (.ok ⟨["k"], "v"⟩) = .yield "k" "v" :=
  (seek_poll_next_contract (Client.new.set_cookie "alice" "tok")
    ⟨"alice", "pod", "table", none⟩ (by decide)).2 "k" [] "v"

theorem from_str_natRepr_letter (n : Nat) (h : n < 4294967296) (c : Char) :
    BlockSize.from_str (natRepr n ++ String.mk [c]) =
      if c = 'B' then .ok (.bytes n)
      else if c = 'K' then .ok (.kilobytes n)
      else if c = 'M' then .ok (.megabytes n)
      else if c = 'G' then .ok (.gigabytes n)
      else if c = 'T' then .ok (.terabytes n)
      else .err () := by
  rw [from_str_eq (natRepr n ++ String.mk [c]) c (natRepr n).data
    (by simp [String.data_append])]
  have hmk : String.mk (natRepr n).data = natRepr n := rfl
  rw [hmk, parseU32_natRepr n h]

/-- C7: for every unit and every `u32` magnitude `n`, parsing the formatted
string of the block size returns the same block size (string round-trip),
while magnitude conversions divide by decimal-SI factors of `1000` and
truncate downward, so `Bytes(1500).to_kilobytes()` equals `Kilobytes(1)`. -/
theorem blockSize_roundtrip_truncation (n : Nat) (h : n < 4294967296) :
    BlockSize.from_str (BlockSize.bytes n).to_string = .ok (.bytes n) ∧
    BlockSize.from_str (BlockSize.kilobytes n).to_string = .ok (.kilobytes n) ∧
    BlockSize.from_str (BlockSize.megabytes n).to_string = .ok (.megabytes n) ∧
    BlockSize.from_str (BlockSize.gigabytes n).to_string = .ok (.gigabytes n) ∧
    BlockSize.from_str (BlockSize.terabytes n).to_string = .ok (.terabytes n) ∧
    (∀ m, m < 4294967296 → (BlockSize.bytes m).to_kilobytes = .kilobytes (m / 1000)) ∧
    (BlockSize.bytes 1500).to_kilobytes = .kilobytes 1 := by
  refine ⟨?_, ?_, ?_, ?_, ?_, ?_, by decide⟩
  · have hB := from_str_natRepr_letter n h 'B'
    simp only [if_pos rfl] at hB
    exact hB
  · have hK := from_str_natRepr_letter n h 'K'
    simp only [show ¬('K' = 'B') from by decide, if_neg, if_pos rfl,
      if_false] at hK
    exact hK
  · have hM := from_str_natRepr_letter n h 'M'
    simp only [show ¬('M' = 'B') from by decide, show ¬('M' = 'K') from by decide,
      if_neg, if_pos rfl, if_false] at hM
    exact hM
  · have hG := from_str_natRepr_letter n h 'G'
    simp only [show ¬('G' = 'B') from by decide, show ¬('G' = 'K') from by decide,
      show ¬('G' = 'M') from by decide, if_neg, if_pos rfl, if_false] at hG
    exact hG
  · have hT := from_str_natRepr_letter n h 'T'
    simp only [show ¬('T' = 'B') from by decide, show ¬('T' = 'K') from by decide,
      show ¬('T' = 'M') from by decide, show ¬('T' = 'G') from by decide,
      if_neg, if_pos rfl, if_false] at hT
    exact hT
  · intro m hm
    have hmod : m % 18446744073709551616 = m := Nat.mod_eq_of_lt (by omega)
    have hdiv : m / 1000 < 4294967296 :=
      lt_of_le_of_lt (Nat.div_le_self m 1000) hm
    simp [BlockSize.to_kilobytes, BlockSize.conversion, BlockSize.bytesValue,
      hmod, Nat.mod_eq_of_lt hdiv]

theorem blockSize_roundtrip_truncation_witness :
    BlockSize.from_str (BlockSize.bytes 7).to_string = .ok (.bytes 7) :=
  (blockSize_roundtrip_truncation 7 (by decide)).1

theorem concat_eq_concat {α : Type} {l₁ l₂ : List α} {a b : α}
    (h : l₁ ++ [a] = l₂ ++ [b]) : l₁ = l₂ ∧ a = b := by
  have h' := congrArg List.reverse h
  simp only [List.reverse_append, List.reverse_singleton, List.singleton_append,
    List.cons.injEq, List.reverse_inj] at h'
  exact ⟨h'.2, h'.1⟩

/-- C10: `from_str` returns `Err(())` exactly when the characters before the
final one parse as a `u32` but the final character is none of
`B`, `K`, `M`, `G`, `T`; on the empty string, and whenever the characters
before the final one do not parse as a `u32`, it panics instead. -/
theorem from_str_err_panic_split (s : String) :
    (BlockSize.from_str s = .err () ↔
      ∃ c pre, s.data = pre ++ [c] ∧
        (parseU32 (String.mk pre)).isSome = true ∧
        c ∉ (['B', 'K', 'M', 'G', 'T'] : List Char)) ∧
    (s.data = [] → BlockSize.from_str s = .panicked) ∧
    (∀ c pre, s.data = pre ++ [c] → parseU32 (String.mk pre) = none →
      BlockSize.from_str s = .panicked) := by
  rcases s.data.eq_nil_or_concat with hnil | ⟨pre, c, hs⟩
  · refine ⟨?_, fun _ => from_str_nil s hnil, fun c pre hcp _ => ?_⟩
    · rw [from_str_nil s hnil]
      simp only [false_iff, reduceCtorEq]
      rintro ⟨c, pre, hcp, -, -⟩
      rw [hnil] at hcp
      exact absurd hcp.symm (List.append_ne_nil_of_right_ne_nil pre (by simp))
    · rw [hnil] at hcp
      exact absurd hcp.symm (List.append_ne_nil_of_right_ne_nil pre (by simp))
  · have hcat : s.data = pre ++ [c] := by simpa [List.concat_eq_append] using hs
    have heq := from_str_eq s c pre hcat
    refine ⟨?_, fun hn => ?_, fun c' pre' hcp' hnone => ?_⟩
    · cases hp : parseU32 (String.mk pre) with
      | none =>
        rw [hp] at heq
        rw [heq]
        simp only [false_iff, reduceCtorEq]
        rintro ⟨c', pre', hcp', hsome, -⟩
        obtain ⟨rfl, rfl⟩ := concat_eq_concat (hcat.symm.trans hcp')
        rw [hp] at hsome
        exact absurd hsome (by decide)
      | some v =>
        rw [hp] at heq
        rw [heq]
        constructor
        · intro herr
          refine ⟨c, pre, hcat, by rw [hp]; rfl, fun hmem => ?_⟩
          fin_cases hmem <;> simp_all
        · rintro ⟨c', pre', hcp', -, hnotmem⟩
          obtain ⟨rfl, rfl⟩ := concat_eq_concat (hcat.symm.trans hcp')
          simp only [List.mem_cons, List.not_mem_nil, or_false, not_or] at hnotmem
          obtain ⟨h1, h2, h3, h4, h5⟩ := hnotmem
          simp [h1, h2, h3, h4, h5]
    · rw [hn] at hcat
      exact absurd hcat.symm (List.append_ne_nil_of_right_ne_nil pre (by simp))
    · obtain ⟨rfl, rfl⟩ := concat_eq_concat (hcat.symm.trans hcp')
      rw [hnone] at heq
      exact heq

theorem from_str_err_panic_split_witness :
    BlockSize.from_str (String.mk ['1', '2']) = .err () :=
  (from_str_err_panic_split (String.mk ['1', '2'])).1.mpr
    ⟨'2', ['1'], rfl, by decide, by decide⟩

/-- C4 counterexample: two failure responses whose envelopes share the message
`"not found"` but differ in the numeric code (1 vs 2) are surfaced as the same
error value `RequestError.message "not found"`, so the surfaced Remote Failure
does not carry the numeric code, contrary to the claim. -/
theorem classify_discards_code_counterexample :
    Client.get (T := Unit) (fun _ => none) some
        (HttpExchange.response 404 (⟨"not found", 1⟩ : MessageResponse)) =
      .err (.message "not found") ∧
    Client.get (T := Unit) (fun _ => none) some
        (HttpExchange.response 404 (⟨"not found", 2⟩ : MessageResponse)) =
      .err (.message "not found") :=
  ⟨rfl, rfl⟩

/-- C4 amended: a response whose status lies in `[200, 300)` is classified as
success and its body is decoded at the expected success type; any other status
is decoded as the `{message, code}` envelope and surfaced as a Remote Failure
that carries the decoded message string (the numeric code is decoded but
discarded), as an error kind distinct from the could-not-connect transport
failure. -/
theorem classify_status_amended {β T : Type} (decodeT : β → Option T)
    (decodeEnv : β → Option MessageResponse) (status : Nat) (body : β) :
    Client.get decodeT decodeEnv HttpExchange.connectFailed =
      .err RequestError.couldNotConnect ∧
    (200 ≤ status ∧ status < 300 → ∀ t, decodeT body = some t →
      Client.get decodeT decodeEnv (.response status body) = .ok t) ∧
    (¬(200 ≤ status ∧ status < 300) → ∀ env, decodeEnv body = some env →
      Client.get decodeT decodeEnv (.response status body) =
        .err (.message env.message) ∧
      RequestError.message env.message ≠ RequestError.couldNotConnect) := by
  refine ⟨rfl, fun hst t ht => ?_, fun hst env henv => ⟨?_, by simp⟩⟩
  · have hok : is_status_ok status = true := by
      simp only [is_status_ok, Bool.and_eq_true, decide_eq_true_eq]
      omega
    simp [Client.get, hok, ht]
  · have hok : is_status_ok status = false := by
      simp only [is_status_ok, Bool.and_eq_false_iff, decide_eq_false_iff_not]
      omega
    simp [Client.get, hok, henv]

theorem classify_status_amended_witness :
    Client.get (fun _ : MessageResponse => some 0) some
        (HttpExchange.response 404 (⟨"oops", 3⟩ : MessageResponse)) =
      .err (.message "oops") ∧
    RequestError.message "oops" ≠ RequestError.couldNotConnect :=
  (classify_status_amended (fun _ : MessageResponse => some 0) some 404
    (⟨"oops", 3⟩ : MessageResponse)).2.2 (by decide) ⟨"oops", 3⟩ rfl

/-- C5 counterexample: calling `get_document` for a username with no stored
session token panics (`self.cookie(username).unwrap()` on `None`) instead of
returning a typed error value, although no unimplemented Expression Compiler
branch is involved. -/
theorem get_document_no_cookie_panics :
    Client.get_document Client.new "alice"
      (Except.ok (⟨"e30="⟩ : DocEntryGetResponse))
      (fun _ => some ()) = .panicked :=
  rfl

/-- C5 amended: the no-panic contract holds only in a qualified form, settled
here for the embedded operations (`get_document`, `count_documents`, the
`Client::get` response classification, the `load_json_buffer`-shaped multipart
loaders, the `Set-Cookie` extraction of `Client::post`, and seek-stream
polling). With a session token stored for the username, response bodies that
decode at the expected shapes, a count response message that parses as a
`u32`, a `Set-Cookie` header value whose piece before the first `';'`
contains an `'='`, successful multipart preparation, and a nonempty keys list
in successful seek responses, these operations return a typed value and never
panic; when one of these conditions fails the operation panics instead of
returning a typed error: an unparseable count message, an `'='`-free
`Set-Cookie` piece, and a failed multipart preparation each panic even with a
stored token and a decodable body. -/
theorem client_no_panic_amended {β T : Type} (c : Client) (u : String)
    (resp : Except RequestError DocEntryGetResponse) (d : String → Option T)
    (hc : (c.cookie u).isSome = true)
    (hd : ∀ r, resp = .ok r → (d r.doc).isSome = true) :
    Client.get_document c u resp d ≠ .panicked ∧
    (∀ (dT : β → Option T) (dE : β → Option MessageResponse)
        (exch : HttpExchange β),
      (∀ st b, exch = .response st b → is_status_ok st = true →
        (dT b).isSome = true) →
      (∀ st b, exch = .response st b → is_status_ok st = false →
        (dE b).isSome = true) →
      Client.get dT dE exch ≠ .panicked) ∧
    (∀ (s : KeyValueSeek) (rsp : Except RequestError KvEntryGetResponse),
      (c.cookie s.username).isSome = true →
      (∀ r, rsp = .ok r → r.keys ≠ []) →
      KeyValueSeek.poll_next c s rsp ≠ .panicked) ∧
    (∀ res : MessageResponse,
      ((parseU32 res.message).isSome = true →
        Client.count_documents c u (.ok res) ≠ .panicked) ∧
      (parseU32 res.message = none →
        Client.count_documents c u (.ok res) = .panicked)) ∧
    (∀ (s f : String) (rest : List String), s.splitOn ";" = f :: rest →
      (∀ x, f.splitOn "=" = [x] → parse_set_cookie s = .panicked) ∧
      (∀ name value vrest, f.splitOn "=" = name :: value :: vrest →
        parse_set_cookie s ≠ .panicked)) ∧
    (∀ (prep : Option String) (rsp : Except RequestError MessageResponse),
      (prep = none → Client.load_json_buffer c u prep rsp = .panicked) ∧
      (∀ b, prep = some b → Client.load_json_buffer c u prep rsp ≠ .panicked)) := by
  obtain ⟨tok, htok⟩ := Option.isSome_iff_exists.mp hc
  refine ⟨?_, fun dT dE exch hT hE => ?_, fun s rsp hcs hkeys => ?_,
    fun res => ⟨fun hp => ?_, fun hp => ?_⟩,
    fun s f rest hs => ⟨fun x hx => ?_, fun name value vrest hx => ?_⟩,
    fun prep rsp => ⟨fun hp => ?_, fun b hb => ?_⟩⟩
  · cases resp with
    | error e => cases e <;> simp [Client.get_document, htok]
    | ok r =>
      obtain ⟨t, ht⟩ := Option.isSome_iff_exists.mp (hd r rfl)
      simp [Client.get_document, htok, ht]
  · cases exch with
    | connectFailed => simp [Client.get]
    | response st b =>
      cases hok : is_status_ok st with
      | true =>
        obtain ⟨t, ht⟩ := Option.isSome_iff_exists.mp (hT st b rfl hok)
        simp [Client.get, hok, ht]
      | false =>
        obtain ⟨env, henv⟩ := Option.isSome_iff_exists.mp (hE st b rfl hok)
        simp [Client.get, hok, henv]
  · obtain ⟨tok', htok'⟩ := Option.isSome_iff_exists.mp hcs
    cases rsp with
    | error e => simp [KeyValueSeek.poll_next, htok']
    | ok r =>
      cases hk : r.keys with
      | nil => exact absurd hk (hkeys r rfl)
      | cons k ks => simp [KeyValueSeek.poll_next, htok', hk]
  · obtain ⟨n, hn⟩ := Option.isSome_iff_exists.mp hp
    simp [Client.count_documents, htok, hn]
  · simp [Client.count_documents, htok, hp]
  · simp [parse_set_cookie, hs, hx]
  · simp only [parse_set_cookie, hs, hx]
    split <;> simp
  · rw [hp]
    rfl
  · rw [hb]
    cases rsp with
    | error e => cases e <;> simp [Client.load_json_buffer, htok]
    | ok r => simp [Client.load_json_buffer, htok]

theorem client_no_panic_amended_witness :
    Client.get_document (Client.new.set_cookie "alice" "tok") "alice"
      (Except.error RequestError.couldNotConnect)
      (fun _ => some ()) ≠ .panicked :=
  (client_no_panic_amended (β := Unit) (Client.new.set_cookie "alice" "tok")
    "alice" (Except.error RequestError.couldNotConnect) (fun _ => some ())
    (by decide) (fun r hr => nomatch hr)).1

end FairOS
